import Mathlib

/-!
# Verification of the seller analytics core

Shallow embedding of the ranking / trend-analysis engine of the `seller`
repository, together with theorems settling the specification claims.

Embedded sources:
* `src/storage/models.py` — `Product.calculate_popularity_score`, the
  `Product` and `ProductHistory` records (presentation-only columns such as
  `image_url`, `description`, `seller_*`, timestamps of collection, … are
  omitted: no modelled operation reads them).
* `src/analytics/ranking_engine.py` — `RankingEngine`.
* `src/analytics/trend_analyzer.py` — `TrendAnalyzer.analyze_sales_trend`,
  `analyze_category_trend`, `analyze_price_trend`, `get_trend_summary`
  (the class defines `get_trend_summary` twice; Python keeps the second
  definition, at lines 666-738, which is the one embedded here).
* `src/data_processing/data_enricher.py` — `DataEnricher._calculate_price_rating`.

Modelling conventions:
* Python floats are modelled as `ℚ` wherever the source only performs field
  arithmetic, and as `ℝ` where `np.log1p` (a transcendental) is applied.
* The SQLAlchemy store is modelled as a `DBState` whose two table reads may
  fail (`Except String _`); a raised exception in a `try:` body is the
  `.error` case, and the `except Exception` handlers of the source
  correspond to the `.error` branches of the definitions.
* SQL `ORDER BY … DESC/ASC` and Python's stable `list.sort` are both
  modelled by the stable `List.insertionSort`.
* Timestamps are `ℚ` seconds; the `pd.to_datetime(...).dt.date` day
  bucketing of the trend analyzer is modelled by flooring to whole days
  (`dayOf`), and `pd.date_range(start, end)` by the inclusive day range
  `windowDays`.
* `pandas` pivot columns are listed in first-occurrence order (pandas sorts
  them; no claim depends on column order, only on column membership).
-/

/-! ## Data model (src/storage/models.py) -/

/-- Model of the `products` table row (`Product` in models.py), restricted to
the columns the embedded operations read. -/
structure Product where
  platform : String
  product_id : String
  name : String
  price : ℚ
  sales_volume : ℕ
  rating : ℚ
  reviews_count : ℕ
  category : String
  popularity_score : ℚ
  keywords : List String
  deriving DecidableEq

/-- Model of the `product_history` table row (`ProductHistory` in models.py). -/
structure ProductHistory where
  product_id : String
  platform : String
  category : String
  date : ℚ
  price : ℚ
  sales_volume : ℕ
  rating : ℚ
  reviews_count : ℕ
  deriving DecidableEq

/-- The queryable store: the two table reads used by the analytics core.
`.error` models a failing store query (an exception inside the `try:` body). -/
structure DBState where
  products : Except String (List Product)
  history : Except String (List ProductHistory)

/-- `Product.calculate_popularity_score`, written over the three raw signals
(models.py lines 100-114). -/
def popularityScoreOf (sales_volume : ℕ) (rating : ℚ) (reviews_count : ℕ) : ℚ :=
  min ((sales_volume : ℚ) / 1000) 1 * 60
    + rating / 5 * 25
    + min ((reviews_count : ℚ) / 500) 1 * 15

/-- `Product.calculate_popularity_score` (models.py lines 100-114). -/
def Product.calculate_popularity_score (p : Product) : ℚ :=
  popularityScoreOf p.sales_volume p.rating p.reviews_count

/-! ## Generic list helpers shared by the embedded operations -/

/-- Attach 1-based (when called with `n = 1`) ranks to a list, modelling
`for i, product in enumerate(products): product['rank'] = i + 1`. -/
def addRank {α : Type} : ℕ → List α → List (α × ℕ)
  | _, [] => []
  | n, a :: l => (a, n) :: addRank (n + 1) l

/-- Descending comparison by a key, the relation used to model
`ORDER BY key DESC` / `sort(key=…, reverse=True)` / `sort_values(ascending=False)`. -/
def geBy {α β : Type} [LinearOrder β] (key : α → β) (a b : α) : Prop :=
  key b ≤ key a

instance {α β : Type} [LinearOrder β] (key : α → β) : DecidableRel (geBy key) :=
  fun a b => inferInstanceAs (Decidable (key b ≤ key a))

instance {α β : Type} [LinearOrder β] (key : α → β) : IsTotal α (geBy key) :=
  ⟨fun a b => le_total (key b) (key a)⟩

instance {α β : Type} [LinearOrder β] (key : α → β) : IsTrans α (geBy key) :=
  ⟨fun _ _ _ h1 h2 => le_trans h2 h1⟩

/-- Ascending comparison by a key (`ORDER BY key ASC`). -/
def leBy {α β : Type} [LinearOrder β] (key : α → β) (a b : α) : Prop :=
  key a ≤ key b

instance {α β : Type} [LinearOrder β] (key : α → β) : DecidableRel (leBy key) :=
  fun a b => inferInstanceAs (Decidable (key a ≤ key b))

instance {α β : Type} [LinearOrder β] (key : α → β) : IsTotal α (leBy key) :=
  ⟨fun a b => le_total (key a) (key b)⟩

instance {α β : Type} [LinearOrder β] (key : α → β) : IsTrans α (leBy key) :=
  ⟨fun _ _ _ h1 h2 => le_trans h1 h2⟩

/-- Stable descending sort by a key. -/
def sortDescBy {α β : Type} [LinearOrder β] (key : α → β) (l : List α) : List α :=
  List.insertionSort (geBy key) l

/-- Stable ascending sort by a key. -/
def sortAscBy {α β : Type} [LinearOrder β] (key : α → β) (l : List α) : List α :=
  List.insertionSort (leBy key) l

/-- Distinct elements in first-occurrence order (SQL `DISTINCT`, pandas
`unique`, `dict` key insertion order). -/
def uniqueFirst {α : Type} [DecidableEq α] : List α → List α
  | [] => []
  | a :: l => a :: uniqueFirst (l.filter (fun b => b ≠ a))
  termination_by l => l.length
  decreasing_by
    simp only [List.length_cons]
    exact Nat.lt_succ_of_le (List.length_filter_le _ _)

/-- Python `min(l)` with the source's `if l else 0` guard. -/
def listMinQ : List ℚ → ℚ
  | [] => 0
  | a :: l => l.foldl min a

/-- Python `max(l)` with the source's `if l else 0` guard. -/
def listMaxQ : List ℚ → ℚ
  | [] => 0
  | a :: l => l.foldl max a

/-- Python `sum(l)`. -/
def listSumQ (l : List ℚ) : ℚ := l.foldl (· + ·) 0

/-- Python `sum(l) / len(l) if l else 0`. -/
def listAvgQ (l : List ℚ) : ℚ :=
  if l.isEmpty then 0 else listSumQ l / l.length

/-- Python `sorted(l)[len(l) // 2] if l else 0`. -/
def listMedianQ (l : List ℚ) : ℚ :=
  if l.isEmpty then 0 else (sortAscBy id l).getD (l.length / 2) 0

/-- Python 3 `round(x)` (round half to even), on exact rationals. -/
def roundHalfEven (x : ℚ) : ℤ :=
  let f := ⌊x⌋
  let r := x - f
  if r < 1 / 2 then f
  else if 1 / 2 < r then f + 1
  else if 2 ∣ f then f else f + 1

/-- Python `round(x, 2)`. -/
def pyRound2 (x : ℚ) : ℚ := (roundHalfEven (x * 100) : ℚ) / 100

/-! ## Optional query filters

`query.filter(...)` is applied only when the argument is truthy
(`if platform:` / `if category:`), so `none` and the empty string both
disable the filter. Some call sites lower-case the argument first
(`platform.lower()`), some compare it verbatim. -/

/-- Filter with `.lower()` applied to the argument
(`Product.platform == platform.lower()`). -/
def optFilterLower (arg : Option String) (col : String) : Bool :=
  match arg with
  | none => true
  | some q => q == "" || col == q.toLower

/-- Filter comparing the argument verbatim. -/
def optFilterRaw (arg : Option String) (col : String) : Bool :=
  match arg with
  | none => true
  | some q => q == "" || col == q

/-! ## Ranking engine (src/analytics/ranking_engine.py) -/

/-- The SQL hotness expression of `get_hot_products` /
`get_price_range_rankings`, lines 49-55 and 223-229:
`sales_volume * 1.0 + rating * 20.0 + reviews_count * 0.1`. -/
def hotnessKey (p : Product) : ℚ :=
  (p.sales_volume : ℚ) * 1 + p.rating * 20 + (p.reviews_count : ℚ) * (1 / 10)

/-- `RankingEngine.get_hot_products` (lines 31-76). The `time_range`
argument is accepted but never read by the source body. An output entry is
the `to_dict()` record paired with its assigned `rank`. -/
def get_hot_products (db : DBState) (platform category : Option String)
    (time_range : String) (limit : ℕ) : List (Product × ℕ) :=
  match db.products with
  | .error _ => []
  | .ok ps =>
      let filtered := ps.filter fun p =>
        optFilterLower platform p.platform && optFilterRaw category p.category
      addRank 1 ((sortDescBy hotnessKey filtered).take limit)

/-- `now - days * 86400` (ranking_engine.py line 83, trend_analyzer.py). -/
def windowStart (now : ℚ) (days : ℕ) : ℚ := now - (days : ℚ) * 86400

/-- The per-product history query of `get_rising_products` (lines 111-118):
records of the product inside the window, ordered by date ascending. -/
def windowHistory (hs : List ProductHistory) (pid : String) (now : ℚ) (days : ℕ) :
    List ProductHistory :=
  sortAscBy (fun h => h.date)
    (hs.filter fun h => h.product_id == pid && decide (windowStart now days ≤ h.date))

/-- The growth-rate computation of `get_rising_products` (lines 120-127),
before the `round(growth_rate, 2)` of line 131. -/
def growthRateOf (history : List ProductHistory) : ℚ :=
  if 1 < history.length then
    match history.head?, history.getLast? with
    | some first, some last =>
        if 0 < first.sales_volume then
          (((last.sales_volume : ℚ) - (first.sales_volume : ℚ))
              / (first.sales_volume : ℚ)) * 100
        else 0
    | _, _ => 0
  else 0

/-- The candidate list `products_with_growth` of `get_rising_products`
(lines 100-137), before sorting: one entry per queried product id, carrying
`round(growth_rate, 2)`. A failing history query is caught per product
(`except … continue`), so the `.error` case skips the product. -/
def risingCandidates (ps : List Product) (hist : Except String (List ProductHistory))
    (platform category : Option String) (days : ℕ) (now : ℚ) : List (Product × ℚ) :=
  let ids := (ps.filter fun p =>
      optFilterLower platform p.platform && optFilterRaw category p.category).map
      (fun p => p.product_id)
  ids.filterMap fun pid =>
    match ps.find? (fun p => p.product_id == pid) with
    | none => none
    | some product =>
        match hist with
        | .error _ => none
        | .ok hs => some (product, pyRound2 (growthRateOf (windowHistory hs pid now days)))

/-- `RankingEngine.get_rising_products` (lines 78-155). -/
def get_rising_products (db : DBState) (platform category : Option String)
    (days limit : ℕ) (now : ℚ) : List ((Product × ℚ) × ℕ) :=
  match db.products with
  | .error _ => []
  | .ok ps =>
      let ids := (ps.filter fun p =>
          optFilterLower platform p.platform && optFilterRaw category p.category).map
          (fun p => p.product_id)
      if ids.isEmpty then []
      else
        addRank 1
          ((sortDescBy Prod.snd
              (risingCandidates ps db.history platform category days now)).take limit)

/-- `RankingEngine.get_category_rankings` (lines 157-188); the result map is
an association list in category-discovery order. -/
def get_category_rankings (db : DBState) (platform : Option String)
    (limit_per_category : ℕ) : List (String × List (Product × ℕ)) :=
  match db.products with
  | .error _ => []
  | .ok ps =>
      let categories :=
        (uniqueFirst ((ps.filter fun p => optFilterLower platform p.platform).map
            (fun p => p.category))).filter (fun c => c != "")
      categories.filterMap fun c =>
        let products := get_hot_products db platform (some c) "week" limit_per_category
        if products.isEmpty then none else some (c, products)

/-- A price bucket of `get_price_range_rankings`; `hi = none` models
`float('inf')` (line 219 skips the upper bound exactly when max is inf). -/
structure PriceRange where
  lo : ℚ
  hi : Option ℚ
  label : String
  deriving DecidableEq

/-- The default buckets of `get_price_range_rankings` (lines 194-199). -/
def defaultPriceRanges : List PriceRange :=
  [⟨0, some 50, "低价"⟩, ⟨50, some 200, "中价"⟩, ⟨200, some 1000, "高价"⟩, ⟨1000, none, "奢侈品"⟩]

/-- `RankingEngine.get_price_range_rankings` (lines 190-250). -/
def get_price_range_rankings (db : DBState) (platform : Option String)
    (price_ranges : Option (List PriceRange)) (limit_per_range : ℕ) :
    List (String × List (Product × ℕ)) :=
  let ranges := match price_ranges with
    | none => defaultPriceRanges
    | some rs => if rs.isEmpty then defaultPriceRanges else rs
  match db.products with
  | .error _ => []
  | .ok ps =>
      ranges.filterMap fun r =>
        let filtered := ps.filter fun p =>
          optFilterLower platform p.platform && decide (r.lo ≤ p.price)
            && (match r.hi with
                | none => true
                | some m => decide (p.price < m))
        let products := addRank 1 ((sortDescBy hotnessKey filtered).take limit_per_range)
        if products.isEmpty then none else some (r.label, products)

/-- `RankingEngine.get_cross_platform_comparison` (lines 252-272). -/
def get_cross_platform_comparison (db : DBState) (category : Option String)
    (limit : ℕ) : List (String × List (Product × ℕ)) :=
  ["tiktok", "amazon", "shopee"].filterMap fun pf =>
    let products := get_hot_products db (some pf) category "week" limit
    if products.isEmpty then none else some (pf, products)

/-- `price_stats` of `get_popular_attributes` (lines 296-302). -/
structure PriceStats where
  lo : ℚ
  hi : ℚ
  average : ℚ
  median : ℚ
  deriving DecidableEq

/-- `rating_stats` of `get_popular_attributes` (lines 305-310). -/
structure RatingStats where
  average : ℚ
  lo : ℚ
  hi : ℚ
  deriving DecidableEq

/-- The result dict of `get_popular_attributes` (lines 313-318). -/
structure AttributeAnalysis where
  top_keywords : List (String × ℕ)
  price_stats : PriceStats
  rating_stats : RatingStats
  total_products_analyzed : ℕ
  deriving DecidableEq

/-- `RankingEngine.get_popular_attributes` (lines 274-322); the early return
of the empty dict (line 281) is `none`. -/
def get_popular_attributes (db : DBState) (platform category : Option String)
    (limit : ℕ) : Option AttributeAnalysis :=
  let hot := get_hot_products db platform category "week" 50
  if hot.isEmpty then none
  else
    let keywords := hot.foldr (fun e acc => e.1.keywords ++ acc) []
    let freq := (uniqueFirst keywords).map fun k => (k, keywords.count k)
    let prices := hot.filterMap fun e => if 0 < e.1.price then some e.1.price else none
    let ratings := hot.filterMap fun e => if 0 < e.1.rating then some e.1.rating else none
    some
      { top_keywords := (sortDescBy (fun kv => kv.2) freq).take limit
        price_stats :=
          { lo := listMinQ prices, hi := listMaxQ prices
            average := listAvgQ prices, median := listMedianQ prices }
        rating_stats :=
          { average := listAvgQ ratings, lo := listMinQ ratings, hi := listMaxQ ratings }
        total_products_analyzed := hot.length }

/-- The platform/category filter stage of `get_price_performance_ranking`
(lines 331-342); this call site compares `platform` verbatim (no
`.lower()`). -/
def valueFiltered (ps : List Product) (platform category : Option String) : List Product :=
  ps.filter fun p => optFilterRaw platform p.platform && optFilterRaw category p.category

/-- The validity filter `df[(df['price'] > 0) & (df['rating'] > 0)]`
(line 352). -/
def valueQualified (ps : List Product) (platform category : Option String) : List Product :=
  (valueFiltered ps platform category).filter fun p =>
    decide (0 < p.price) && decide (0 < p.rating)

/-- `df['value_score'] = df['rating'] / np.log1p(df['price'])` (line 359). -/
noncomputable def value_score (p : Product) : ℝ :=
  (p.rating : ℝ) / Real.log (1 + (p.price : ℝ))

/-- `RankingEngine.get_price_performance_ranking` (lines 324-377). -/
noncomputable def get_price_performance_ranking (db : DBState)
    (platform category : Option String) (limit : ℕ) : List ((Product × ℝ) × ℕ) :=
  match db.products with
  | .error _ => []
  | .ok ps =>
      let scored := (valueQualified ps platform category).map fun p => (p, value_score p)
      addRank 1 ((sortDescBy Prod.snd scored).take limit)

/-! ## Data enricher (src/data_processing/data_enricher.py) -/

/-- `DataEnricher._calculate_price_rating` (lines 156-179). The inputs are
the optional `price` / `rating` dict entries; Python's truthiness test
`not product.get('price')` treats a missing entry and a zero value alike. -/
noncomputable def calculate_price_rating (price rating : Option ℚ) : String :=
  if price.getD 0 = 0 ∨ rating.getD 0 = 0 then "Unknown"
  else
    let p := price.getD 0
    let r := rating.getD 0
    if 1 < (r : ℝ) / (Real.log (1 + (p : ℝ)) + 1) then "Good Value"
    else if 1 / 2 < (r : ℝ) / (Real.log (1 + (p : ℝ)) + 1) then "Fair Value"
    else "Expensive"

/-! ## Trend analyzer (src/analytics/trend_analyzer.py) -/

/-- Day bucket of a timestamp, modelling `pd.to_datetime(date, unit='s').dt.date`. -/
def dayOf (t : ℚ) : ℤ := ⌊t / 86400⌋

/-- The inclusive day range `pd.date_range(start_time.date(), end_time.date())`. -/
def windowDays (now : ℚ) (days : ℕ) : List ℤ :=
  (List.range (dayOf now - dayOf (windowStart now days) + 1).toNat).map
    fun i => dayOf (windowStart now days) + i

/-- The history query of the `analyze_*` methods (window filter plus the
verbatim platform / category filters of lines 357-362, 464-465, 578-583). -/
def histFilter (hs : List ProductHistory) (platform category : Option String)
    (now : ℚ) (days : ℕ) : List ProductHistory :=
  hs.filter fun h => decide (windowStart now days ≤ h.date)
    && optFilterRaw platform h.platform && optFilterRaw category h.category

/-- The row index of a pandas pivot built from `rs`: the days that carry at
least one record. -/
def pivotDays (rs : List ProductHistory) : List ℤ :=
  uniqueFirst (rs.map fun h => dayOf h.date)

/-- Does group `g` (under grouping column `col`) have a record on day `d`? -/
def hasCell (rs : List ProductHistory) (col : ProductHistory → String)
    (g : String) (d : ℤ) : Bool :=
  rs.any fun h => col h == g && decide (dayOf h.date = d)

/-- Daily summed sales of one group, `groupby([...])['sales_volume'].sum()`. -/
def sumSalesCell (rs : List ProductHistory) (col : ProductHistory → String)
    (g : String) (d : ℤ) : ℚ :=
  listSumQ ((rs.filter fun h => col h == g && decide (dayOf h.date = d)).map
    (fun h => (h.sales_volume : ℚ)))

/-- Daily mean price of one group, `groupby([...])['price'].mean()`. -/
def meanPriceCell (rs : List ProductHistory) (col : ProductHistory → String)
    (g : String) (d : ℤ) : ℚ :=
  listAvgQ ((rs.filter fun h => col h == g && decide (dayOf h.date = d)).map
    (fun h => h.price))

/-- One cell of the sales pivot after `pivot(...).fillna(0)`: a day in the
pivot index with no record for this group is zero-filled; a day outside the
pivot index is still missing (`none`) until the reindex stage. -/
def salesPivotCell (rs : List ProductHistory) (col : ProductHistory → String)
    (g : String) (d : ℤ) : Option ℚ :=
  if hasCell rs col g d then some (sumSalesCell rs col g d)
  else if d ∈ pivotDays rs then some 0
  else none

/-- One cell of the price pivot after `pivot(...).fillna(0)` (lines 603,
607, 611); in the single-scope branch (both platform and category given) the
grouping column is constant, so the zero branch is unreachable and the cell
is simply the daily mean or missing. -/
def pricePivotCell (rs : List ProductHistory) (col : ProductHistory → String)
    (g : String) (d : ℤ) : Option ℚ :=
  if hasCell rs col g d then some (meanPriceCell rs col g d)
  else if d ∈ pivotDays rs then some 0
  else none

/-- Fuel-driven backwards scan for `fillna(method='ffill')`. -/
def ffillGo (cell : ℤ → Option ℚ) : ℤ → ℕ → Option ℚ
  | d, 0 => cell d
  | d, n + 1 =>
      match cell d with
      | some v => some v
      | none => ffillGo cell (d - 1) n

/-- Value at day `d` of a series reindexed over `[startD, …]` and
forward-filled: the cell itself if present, otherwise the nearest earlier
cell within the range (`none` models a leading NaN). -/
def ffillCell (cell : ℤ → Option ℚ) (startD d : ℤ) : Option ℚ :=
  ffillGo cell d (d - startD).toNat

/-- `analyze_sales_trend` grouping column: by category when only platform is
given (line 376), by platform when only category is given (line 380), a
single unnamed value column when both are given (lines 384-385), by
platform when neither is given (lines 388-391). -/
def salesTrendCol (platform category : Option String) : ProductHistory → String :=
  if platform.isSome && category.isSome then fun _ => "sales_volume"
  else if platform.isSome then fun h => h.category
  else fun h => h.platform

/-- Result of `analyze_sales_trend` (the returned dict minus the rendered
chart image, which is presentation-only): `trend_data` (per-column series
over the reindexed window, including the appended `total` column),
`growth_rate`, and the analysis period as day numbers. -/
structure SalesTrendResult where
  trend_data : List (String × List (ℤ × ℚ))
  growth_rate : ℚ
  period_start : ℤ
  period_end : ℤ
  deriving DecidableEq

/-- `TrendAnalyzer.analyze_sales_trend` (lines 337-443). -/
def analyze_sales_trend (db : DBState) (platform category : Option String)
    (now : ℚ) (days : ℕ) : Option SalesTrendResult :=
  match db.history with
  | .error _ => none
  | .ok hs =>
      let rs := histFilter hs platform category now days
      let col := salesTrendCol platform category
      let cols := if platform.isSome && category.isSome then ["sales_volume"]
        else uniqueFirst (rs.map col)
      let range := windowDays now days
      let series := fun g => range.map fun d => (d, (salesPivotCell rs col g d).getD 0)
      let totalSeries := range.map fun d =>
        (d, listSumQ (cols.map fun g => (salesPivotCell rs col g d).getD 0))
      let firstTotal := (totalSeries.map Prod.snd).headD 0
      let lastTotal := (totalSeries.map Prod.snd).getLastD 0
      some
        { trend_data := cols.map (fun g => (g, series g)) ++ [("total", totalSeries)]
          growth_rate :=
            if 0 < firstTotal then (lastTotal - firstTotal) / firstTotal * 100 else 0
          period_start := dayOf (windowStart now days)
          period_end := dayOf now }

/-- Result of `analyze_category_trend` (minus the two rendered charts):
the top-5 per-category series, the full `category_totals` map in descending
total order, the per-kept-category `growth_rates`, and the period. -/
structure CategoryTrendResult where
  trend_data : List (String × List (ℤ × ℚ))
  category_totals : List (String × ℚ)
  growth_rates : List (String × ℚ)
  period_start : ℤ
  period_end : ℤ
  deriving DecidableEq

/-- `TrendAnalyzer.analyze_category_trend` (lines 445-556). -/
def analyze_category_trend (db : DBState) (platform : Option String)
    (now : ℚ) (days : ℕ) : Option CategoryTrendResult :=
  match db.history with
  | .error _ => none
  | .ok hs =>
      let rs := histFilter hs platform none now days
      let cats := uniqueFirst (rs.map fun h => h.category)
      let totals := sortDescBy Prod.snd (cats.map fun c =>
        (c, listSumQ ((rs.filter fun h => h.category == c).map
          (fun h => (h.sales_volume : ℚ)))))
      let top_categories := (totals.take 5).map Prod.fst
      let filtered := rs.filter fun h => top_categories.contains h.category
      let cols := uniqueFirst (filtered.map fun h => h.category)
      let range := windowDays now days
      let col := fun (h : ProductHistory) => h.category
      let series := fun g => range.map fun d => (d, (salesPivotCell filtered col g d).getD 0)
      let growth := fun g =>
        let vs := (series g).map Prod.snd
        let f := vs.headD 0
        let l := vs.getLastD 0
        if 0 < f then (l - f) / f * 100 else 0
      some
        { trend_data := cols.map fun g => (g, series g)
          category_totals := totals
          growth_rates := cols.map fun g => (g, growth g)
          period_start := dayOf (windowStart now days)
          period_end := dayOf now }

/-- `analyze_price_trend` grouping column: a single `average_price` column
when both scopes are given (lines 595-599), by category when only platform
is given (line 602), by platform otherwise (lines 606, 610). -/
def priceTrendCol (platform category : Option String) : ProductHistory → String :=
  if platform.isSome && category.isSome then fun _ => "average_price"
  else if platform.isSome then fun h => h.category
  else fun h => h.platform

/-- Result of `analyze_price_trend` (minus the rendered chart): the
forward-filled per-column series (a `none` cell is a leading NaN),
`price_change_rate`, and the period. -/
structure PriceTrendResult where
  trend_data : List (String × List (ℤ × Option ℚ))
  price_change_rate : ℚ
  period_start : ℤ
  period_end : ℤ
  deriving DecidableEq

/-- Mean across the row of a pivot, skipping missing cells
(`pivot_df.mean(axis=1)`, line 619). -/
def rowMean (vals : List (Option ℚ)) : Option ℚ :=
  let vs := vals.filterMap id
  if vs.isEmpty then none else some (listSumQ vs / vs.length)

/-- `TrendAnalyzer.analyze_price_trend` (lines 558-664). -/
def analyze_price_trend (db : DBState) (platform category : Option String)
    (now : ℚ) (days : ℕ) : Option PriceTrendResult :=
  match db.history with
  | .error _ => none
  | .ok hs =>
      let rs := histFilter hs platform category now days
      let col := priceTrendCol platform category
      let cols := if platform.isSome && category.isSome then ["average_price"]
        else uniqueFirst (rs.map col)
      let startD := dayOf (windowStart now days)
      let range := windowDays now days
      let cellOf := fun g d => ffillCell (pricePivotCell rs col g) startD d
      let base := cols.map fun g => (g, range.map fun d => (d, cellOf g d))
      let avgAt : ℤ → Option ℚ :=
        if cols.contains "average_price" then cellOf "average_price"
        else fun d => rowMean (cols.map fun g => cellOf g d)
      let trend := if cols.contains "average_price" then base
        else base ++ [("average_price", range.map fun d => (d, avgAt d))]
      let change := match avgAt startD, avgAt (dayOf now) with
        | some f, some l => if 0 < f then (l - f) / f * 100 else 0
        | _, _ => 0
      some
        { trend_data := trend
          price_change_rate := change
          period_start := startD
          period_end := dayOf now }

/-- Python `max(assocList.items(), key=lambda x: x[1])`: the first entry
with maximal value; `none` when the map is empty. -/
def maxByValue (l : List (String × ℚ)) : Option (String × ℚ) :=
  l.foldl
    (fun acc kv =>
      match acc with
      | none => some kv
      | some best => if best.2 < kv.2 then some kv else some best)
    none

/-- Result of `TrendAnalyzer.get_trend_summary`: either the degraded
structured object with the explicit `error` marker and whatever partial
sub-results exist (lines 678-684), or the full summary (lines 686-738; the
`summary_text` narrative is a string rendering of the structured fields and
is not modelled separately). -/
inductive TrendSummary where
  | failure (error : String) (sales_trend : Option SalesTrendResult)
      (category_trend : Option CategoryTrendResult)
      (price_trend : Option PriceTrendResult)
  | report (sales_trend : SalesTrendResult) (category_trend : CategoryTrendResult)
      (price_trend : PriceTrendResult)
      (fastest_growing : Option (String × ℚ)) (top_category : Option (String × ℚ))
      (price_change : ℚ)
  deriving DecidableEq

/-- `TrendAnalyzer.get_trend_summary` (lines 666-738, the effective second
definition of the method). -/
def get_trend_summary (db : DBState) (platform : Option String)
    (now : ℚ) (days : ℕ) : TrendSummary :=
  let sales_trend := analyze_sales_trend db platform none now days
  let category_trend := analyze_category_trend db platform now days
  let price_trend := analyze_price_trend db platform none now days
  match sales_trend, category_trend, price_trend with
  | some s, some c, some p =>
      .report s c p (maxByValue c.growth_rates) (maxByValue c.category_totals)
        p.price_change_rate
  | s, c, p => .failure "Failed to generate trend summary" s c p

/-! ## Shared lemmas about the helpers -/

theorem addRank_length {α : Type} (n : ℕ) (l : List α) :
    (addRank n l).length = l.length := by
  induction l generalizing n with
  | nil => rfl
  | cons a l ih => simp [addRank, ih]

theorem addRank_map_fst {α : Type} (n : ℕ) (l : List α) :
    (addRank n l).map Prod.fst = l := by
  induction l generalizing n with
  | nil => rfl
  | cons a l ih => simp [addRank, ih]

theorem addRank_map_snd {α : Type} (n : ℕ) (l : List α) :
    (addRank n l).map Prod.snd = List.range' n l.length := by
  induction l generalizing n with
  | nil => rfl
  | cons a l ih => simp [addRank, ih, List.range']

theorem addRank_pairwise {α : Type} {R : α → α → Prop} {n : ℕ} {l : List α}
    (h : l.Pairwise R) : (addRank n l).Pairwise fun a b => R a.1 b.1 := by
  have h2 : ((addRank n l).map Prod.fst).Pairwise R := by
    rw [addRank_map_fst]; exact h
  exact List.pairwise_map.mp h2

theorem mem_addRank_fst {α : Type} {e : α × ℕ} {n : ℕ} {l : List α}
    (h : e ∈ addRank n l) : e.1 ∈ l := by
  have : e.1 ∈ (addRank n l).map Prod.fst := List.mem_map_of_mem Prod.fst h
  rwa [addRank_map_fst] at this

theorem sortDescBy_pairwise {α β : Type} [LinearOrder β] (key : α → β) (l : List α) :
    (sortDescBy key l).Pairwise fun a b => key b ≤ key a :=
  (List.sorted_insertionSort (geBy key) l).imp fun h => h

theorem sortDescBy_perm {α β : Type} [LinearOrder β] (key : α → β) (l : List α) :
    (sortDescBy key l).Perm l :=
  List.perm_insertionSort (geBy key) l

theorem sortDescBy_length {α β : Type} [LinearOrder β] (key : α → β) (l : List α) :
    (sortDescBy key l).length = l.length :=
  (sortDescBy_perm key l).length_eq

theorem mem_sortDescBy {α β : Type} [LinearOrder β] {key : α → β} {l : List α} {a : α} :
    a ∈ sortDescBy key l ↔ a ∈ l :=
  (sortDescBy_perm key l).mem_iff

theorem mem_uniqueFirst {α : Type} [DecidableEq α] {a : α} :
    ∀ {l : List α}, a ∈ uniqueFirst l ↔ a ∈ l
  | [] => by simp [uniqueFirst]
  | b :: l => by
    rw [uniqueFirst]
    by_cases hab : a = b
    · subst hab; simp
    · simp only [List.mem_cons, hab, false_or]
      rw [mem_uniqueFirst (l := l.filter fun c => c ≠ b)]
      simp [List.mem_filter, hab]
  termination_by l => l.length
  decreasing_by
    simp only [List.length_cons]
    exact Nat.lt_succ_of_le (List.length_filter_le _ _)

/-! ## Claim C10 — `get_hot_products` ignores `time_range` -/

/-- C10: the output of `get_hot_products` does not depend on its
`time_range` argument: for every store state, platform, category and limit,
any two `time_range` values (including unsupported tokens) give identical
results — the body of the source function never reads `time_range` and no
time-window filtering is applied to the hot ranking. -/
theorem hot_products_independent_of_time_range (db : DBState)
    (platform category : Option String) (t1 t2 : String) (limit : ℕ) :
    get_hot_products db platform category t1 limit
      = get_hot_products db platform category t2 limit := rfl

/-! ## Claim C2 — popularity score bounds and monotonicity -/

/-- C2: for every product record with `rating` in `[0, 5]` (sales and review
counts are non-negative by type), `calculate_popularity_score` lies in
`[0, 100]`, and the score is monotonically non-decreasing in each of
`sales_volume`, `rating` and `reviews_count` with the other two held
fixed. -/
theorem popularity_score_bounds_monotone :
    (∀ p : Product, 0 ≤ p.rating → p.rating ≤ 5 →
      0 ≤ p.calculate_popularity_score ∧ p.calculate_popularity_score ≤ 100) ∧
    (∀ (s s' : ℕ) (r : ℚ) (c : ℕ), s ≤ s' →
      popularityScoreOf s r c ≤ popularityScoreOf s' r c) ∧
    (∀ (s : ℕ) (r r' : ℚ) (c : ℕ), r ≤ r' →
      popularityScoreOf s r c ≤ popularityScoreOf s r' c) ∧
    (∀ (s : ℕ) (r : ℚ) (c c' : ℕ), c ≤ c' →
      popularityScoreOf s r c ≤ popularityScoreOf s r c') := by
  refine ⟨fun p hr0 hr5 => ?_, fun s s' r c h => ?_, fun s r r' c h => ?_,
    fun s r c c' h => ?_⟩
  · have h1 : min ((p.sales_volume : ℚ) / 1000) 1 ≤ 1 := min_le_right _ _
    have h2 : (0 : ℚ) ≤ min ((p.sales_volume : ℚ) / 1000) 1 :=
      le_min (by positivity) zero_le_one
    have h3 : min ((p.reviews_count : ℚ) / 500) 1 ≤ 1 := min_le_right _ _
    have h4 : (0 : ℚ) ≤ min ((p.reviews_count : ℚ) / 500) 1 :=
      le_min (by positivity) zero_le_one
    constructor <;>
      · simp only [Product.calculate_popularity_score, popularityScoreOf]
        nlinarith
  · have hc : (s : ℚ) ≤ (s' : ℚ) := by exact_mod_cast h
    have hd : (s : ℚ) / 1000 ≤ (s' : ℚ) / 1000 := by linarith
    simp only [popularityScoreOf]
    have := mul_le_mul_of_nonneg_right (min_le_min hd (le_refl (1 : ℚ)))
      (by norm_num : (0 : ℚ) ≤ 60)
    linarith
  · simp only [popularityScoreOf]
    have hd : r / 5 ≤ r' / 5 := by linarith
    nlinarith
  · have hc : (c : ℚ) ≤ (c' : ℚ) := by exact_mod_cast h
    have hd : (c : ℚ) / 500 ≤ (c' : ℚ) / 500 := by linarith
    simp only [popularityScoreOf]
    have := mul_le_mul_of_nonneg_right (min_le_min hd (le_refl (1 : ℚ)))
      (by norm_num : (0 : ℚ) ≤ 15)
    linarith

/-- Witness for C2 at a concrete record and concrete signal increments. -/
theorem popularity_score_bounds_monotone_witness :
    (0 ≤ Product.calculate_popularity_score
        ⟨"amazon", "P1", "P1", 10, 500, 4, 100, "c", 0, []⟩ ∧
      Product.calculate_popularity_score
        ⟨"amazon", "P1", "P1", 10, 500, 4, 100, "c", 0, []⟩ ≤ 100) ∧
    popularityScoreOf 500 4 100 ≤ popularityScoreOf 600 4 100 ∧
    popularityScoreOf 500 3 100 ≤ popularityScoreOf 500 4 100 ∧
    popularityScoreOf 500 4 100 ≤ popularityScoreOf 500 4 200 :=
  ⟨popularity_score_bounds_monotone.1 _ (by norm_num) (by norm_num),
    popularity_score_bounds_monotone.2.1 500 600 4 100 (by norm_num),
    popularity_score_bounds_monotone.2.2.1 500 3 4 100 (by norm_num),
    popularity_score_bounds_monotone.2.2.2 500 4 100 200 (by norm_num)⟩

/-! ## Claim C1 — what `get_hot_products` actually sorts by -/

/-- First counterexample product: high sales, zero rating. Its stored
`popularity_score` agrees with `calculate_popularity_score` (60). -/
def hotA : Product := ⟨"amazon", "A", "Product A", 10, 2000, 0, 0, "cat", 60, []⟩

/-- Second counterexample product: lower sales, top rating. Its stored
`popularity_score` agrees with `calculate_popularity_score` (85). -/
def hotB : Product := ⟨"amazon", "B", "Product B", 10, 1000, 5, 0, "cat", 85, []⟩

/-- Store for the C1 counterexample. -/
def exDB1 : DBState := ⟨.ok [hotA, hotB], .ok []⟩

/-- C1 counterexample: `get_hot_products` ranks `hotA` (popularity 60)
above `hotB` (popularity 85), because the source orders by the SQL
expression `sales_volume * 1.0 + rating * 20.0 + reviews_count * 0.1`
(2000 vs 1100 here), not by the `popularity_score` field; the claimed
descending-popularity order is violated even though both stored scores
agree with `calculate_popularity_score`. -/
theorem hot_ranking_not_by_popularity_score :
    get_hot_products exDB1 none none "week" 20 = [(hotA, 1), (hotB, 2)] ∧
    hotA.popularity_score < hotB.popularity_score ∧
    hotA.calculate_popularity_score = hotA.popularity_score ∧
    hotB.calculate_popularity_score = hotB.popularity_score := by
  refine ⟨?_, by norm_num [hotA, hotB], ?_, ?_⟩
  · show addRank 1 ((sortDescBy hotnessKey
        ([hotA, hotB].filter fun p =>
          optFilterLower none p.platform && optFilterRaw none p.category)).take 20)
      = [(hotA, 1), (hotB, 2)]
    have hfilter : ([hotA, hotB].filter fun p =>
        optFilterLower none p.platform && optFilterRaw none p.category)
        = [hotA, hotB] := by
      simp [optFilterLower, optFilterRaw]
    rw [hfilter]
    have hsort : sortDescBy hotnessKey [hotA, hotB] = [hotA, hotB] := by
      simp only [sortDescBy, List.insertionSort, List.orderedInsert]
      rw [if_pos]
      show hotnessKey hotB ≤ hotnessKey hotA
      norm_num [hotnessKey, hotA, hotB]
    rw [hsort, List.take_of_length_le (by norm_num)]
    rfl
  · norm_num [Product.calculate_popularity_score, popularityScoreOf, hotA]
  · norm_num [Product.calculate_popularity_score, popularityScoreOf, hotB]

/-- C1 amended: the hot ranking is sorted in descending order of the SQL
hotness expression `sales_volume * 1.0 + rating * 20.0 + reviews_count *
0.1` (not of the `popularity_score` field); every entry's rank equals its
1-based position and the list's length is at most `limit`. -/
theorem hot_ranking_sorted_by_hotness_key (db : DBState)
    (platform category : Option String) (time_range : String) (limit : ℕ) :
    (get_hot_products db platform category time_range limit).Pairwise
      (fun a b : Product × ℕ => hotnessKey b.1 ≤ hotnessKey a.1) ∧
    (get_hot_products db platform category time_range limit).length ≤ limit ∧
    (get_hot_products db platform category time_range limit).map Prod.snd
      = List.range' 1 (get_hot_products db platform category time_range limit).length := by
  unfold get_hot_products
  cases db.products with
  | error e => simp
  | ok ps =>
      refine ⟨?_, ?_, ?_⟩
      · exact addRank_pairwise
          ((sortDescBy_pairwise hotnessKey _).sublist (List.take_sublist _ _))
      · rw [addRank_length]
        exact List.length_take_le _ _
      · rw [addRank_map_snd, addRank_length]

/-! ## Claim C3 — rising-product growth rates -/

/-- The claim's growth formula over the window's sales values (before any
rounding): `(last - first) / first * 100` when there are at least two
history points and the first sales value is positive, else `0`. -/
def claimGrowthRate (sales : List ℕ) : ℚ :=
  if 2 ≤ sales.length ∧ 0 < sales.headD 0 then
    ((sales.getLastD 0 : ℚ) - (sales.headD 0 : ℚ)) / (sales.headD 0 : ℚ) * 100
  else 0

/-- The source's growth computation agrees with the claim's formula over
the sales values of the (date-ordered) window history. -/
theorem growthRateOf_eq_claim (h : List ProductHistory) :
    growthRateOf h = claimGrowthRate (h.map fun r => r.sales_volume) := by
  cases h with
  | nil => rfl
  | cons a t =>
    cases t with
    | nil => rfl
    | cons b t2 =>
      obtain ⟨x, hx⟩ := Option.isSome_iff_exists.mp
        (show (b :: t2).getLast?.isSome by simp [List.getLast?_isSome])
      have hx2 : (a :: b :: t2).getLast? = some x := by
        rw [List.getLast?_cons_cons]; exact hx
      have hmap : ((a :: b :: t2).map fun r => r.sales_volume).getLastD 0
          = x.sales_volume := by
        rw [List.getLastD_eq_getLast?, List.getLast?_map, hx2]
        rfl
      have hhead : ((a :: b :: t2).map fun r => r.sales_volume).headD 0
          = a.sales_volume := rfl
      simp only [growthRateOf, claimGrowthRate, List.head?_cons, hx2,
        List.length_cons, List.length_map, hmap, hhead]
      have hlen1 : 1 < t2.length + 1 + 1 := by omega
      have hlen2 : 2 ≤ t2.length + 1 + 1 := by omega
      rw [if_pos hlen1]
      by_cases hs : 0 < a.sales_volume
      · rw [if_pos hs, if_pos ⟨hlen2, hs⟩]
      · rw [if_neg hs, if_neg]
        rintro ⟨-, hc⟩
        exact hs hc

/-- `List.find?` returns the unique element carrying a given key when the
keys are pairwise distinct (the `product_id` UNIQUE column constraint). -/
theorem find?_unique_by_key {α β : Type} [BEq β] [LawfulBEq β] (f : α → β) :
    ∀ (ps : List α) (p : α), p ∈ ps → (ps.map f).Nodup →
      ps.find? (fun q => f q == f p) = some p := by
  intro ps
  induction ps with
  | nil => intro p hp; exact absurd hp (List.not_mem_nil p)
  | cons a t ih =>
      intro p hp hnd
      rw [List.map_cons] at hnd
      have hhead : f a ∉ t.map f := (List.nodup_cons.mp hnd).1
      have htail : (t.map f).Nodup := (List.nodup_cons.mp hnd).2
      by_cases hap : (f a == f p) = true
      · have hcase := List.mem_cons.mp hp
        rcases hcase with h | h
        · subst h
          exact List.find?_cons_of_pos _ (by simp)
        · exfalso
          have hfa : f a = f p := eq_of_beq hap
          have hmem : f p ∈ t.map f := List.mem_map_of_mem f h
          rw [hfa] at hhead
          exact hhead hmem
      · have hpa : p ≠ a := by
          rintro rfl
          exact hap (by simp)
        have hpt : p ∈ t := by
          rcases List.mem_cons.mp hp with h | h
          · exact absurd h hpa
          · exact h
        have hstep := List.find?_cons_of_neg (p := fun q => f q == f p) (a := a) t hap
        rw [hstep]
        exact ih p hpt htail

/-- C3 amended: in `get_rising_products`, the returned list is sorted
descending by `growth_rate`, truncated to `limit`, with rank = 1-based
position; every candidate product passing the platform/category filter is
included in the candidate set (products with fewer than two window history
points, or zero first sales, get growth 0 but are not excluded), with
growth rate equal to the claim's formula rounded to two decimal places
(`round(growth_rate, 2)` at line 131 of ranking_engine.py; the rounding is
the only amendment to the claim). -/
theorem rising_products_ranking (db : DBState) (platform category : Option String)
    (days limit : ℕ) (now : ℚ) :
    (get_rising_products db platform category days limit now).Pairwise
      (fun a b => b.1.2 ≤ a.1.2) ∧
    (get_rising_products db platform category days limit now).length ≤ limit ∧
    (get_rising_products db platform category days limit now).map Prod.snd
      = List.range' 1 (get_rising_products db platform category days limit now).length ∧
    (∀ ps hs, db.products = .ok ps → db.history = .ok hs →
      (ps.map fun p => p.product_id).Nodup →
      ∀ p ∈ ps,
        (optFilterLower platform p.platform && optFilterRaw category p.category) = true →
        (p, pyRound2 (claimGrowthRate
            ((windowHistory hs p.product_id now days).map fun r => r.sales_volume)))
          ∈ risingCandidates ps db.history platform category days now) := by
  refine ⟨?_, ?_, ?_, ?_⟩
  · unfold get_rising_products
    cases db.products with
    | error e => simp
    | ok ps =>
        by_cases hids : ((ps.filter fun p =>
            optFilterLower platform p.platform && optFilterRaw category p.category).map
            (fun p => p.product_id)).isEmpty
        · simp [hids]
        · simp only [hids, Bool.false_eq_true, if_false]
          exact addRank_pairwise
            ((sortDescBy_pairwise Prod.snd _).sublist (List.take_sublist _ _))
  · unfold get_rising_products
    cases db.products with
    | error e => simp
    | ok ps =>
        by_cases hids : ((ps.filter fun p =>
            optFilterLower platform p.platform && optFilterRaw category p.category).map
            (fun p => p.product_id)).isEmpty
        · simp [hids]
        · simp only [hids, Bool.false_eq_true, if_false]
          rw [addRank_length]
          exact List.length_take_le _ _
  · unfold get_rising_products
    cases db.products with
    | error e => simp
    | ok ps =>
        by_cases hids : ((ps.filter fun p =>
            optFilterLower platform p.platform && optFilterRaw category p.category).map
            (fun p => p.product_id)).isEmpty
        · simp [hids]
        · simp only [hids, Bool.false_eq_true, if_false]
          rw [addRank_map_snd, addRank_length]
  · intro ps hs hps hhs hnodup p hp hfilt
    unfold risingCandidates
    have hpid : p.product_id ∈ (ps.filter fun p =>
        optFilterLower platform p.platform && optFilterRaw category p.category).map
        (fun p => p.product_id) :=
      List.mem_map_of_mem _ (List.mem_filter.mpr ⟨hp, hfilt⟩)
    refine List.mem_filterMap.mpr ⟨p.product_id, hpid, ?_⟩
    rw [find?_unique_by_key (fun q => q.product_id) ps p hp hnodup, hhs]
    show some (p, pyRound2 (growthRateOf (windowHistory hs p.product_id now days))) = _
    rw [growthRateOf_eq_claim]

/-- The single product of the C3 scenario store. -/
def scenX : Product := ⟨"amazon", "X", "Product X", 10, 300, 4, 10, "cat", 0, []⟩

/-- Scenario history: sales 100, 150, 300 on three consecutive days. -/
def scenHist : List ProductHistory :=
  [⟨"X", "amazon", "cat", 4 * 86400, 10, 100, 4, 10⟩,
   ⟨"X", "amazon", "cat", 5 * 86400, 10, 150, 4, 10⟩,
   ⟨"X", "amazon", "cat", 6 * 86400, 10, 300, 4, 10⟩]

/-- Scenario store for C3. -/
def scenDB : DBState := ⟨.ok [scenX], .ok scenHist⟩

/-- C3 scenario: a product with window sales 100, 150, 300 over three days
gets growth_rate (300-100)/100*100 = 200.0. -/
theorem rising_products_scenario_200 :
    get_rising_products scenDB none none 3 20 (7 * 86400) = [((scenX, 200), 1)] := by
  have hwin : windowHistory scenHist "X" 604800 3 = scenHist := by
    have hfil : (scenHist.filter fun h =>
        h.product_id == "X" && decide (windowStart 604800 3 ≤ h.date)) = scenHist := by
      norm_num [scenHist, windowStart, List.filter]
    rw [windowHistory, hfil]
    norm_num [scenHist, sortAscBy, List.insertionSort, List.orderedInsert, leBy]
  have hgrow : pyRound2 (growthRateOf (windowHistory scenHist "X" 604800 3)) = 200 := by
    rw [hwin]
    have : growthRateOf scenHist = 200 := by
      norm_num [growthRateOf, scenHist, List.getLast?]
    rw [this]
    norm_num [pyRound2, roundHalfEven]
  show (if (([scenX].filter fun p =>
      optFilterLower none p.platform && optFilterRaw none p.category).map
      (fun p => p.product_id)).isEmpty then []
    else addRank 1 ((sortDescBy Prod.snd
      (risingCandidates [scenX] (.ok scenHist) none none 3 (7 * 86400))).take 20))
    = [((scenX, 200), 1)]
  have hcands : risingCandidates [scenX] (.ok scenHist) none none 3 (7 * 86400)
      = [(scenX, 200)] := by
    rw [risingCandidates]
    norm_num [scenX, optFilterLower, optFilterRaw, List.filter, List.filterMap, List.find?]
    exact hgrow
  rw [hcands]
  norm_num [scenX, optFilterLower, optFilterRaw, List.filter, sortDescBy,
    List.insertionSort, List.orderedInsert, addRank]

/-- The product of the C3 counterexample store. -/
def cexX : Product := ⟨"amazon", "X", "Product X", 10, 4, 4, 10, "cat", 0, []⟩

/-- Counterexample history: window sales go from 3 to 4. -/
def cexHist : List ProductHistory :=
  [⟨"X", "amazon", "cat", 4 * 86400, 10, 3, 4, 10⟩,
   ⟨"X", "amazon", "cat", 5 * 86400, 10, 4, 4, 10⟩]

/-- Counterexample store for C3. -/
def exDB3 : DBState := ⟨.ok [cexX], .ok cexHist⟩

/-- C3 counterexample: with window sales 3 then 4, the source stores
`round((4-3)/3*100, 2) = 33.33`, which differs from the claim's exact
`(4-3)/3*100 = 100/3 = 33.333…`; the claimed equality fails on the code. -/
theorem rising_growth_rate_is_rounded :
    get_rising_products exDB3 none none 7 20 (7 * 86400) = [((cexX, 3333 / 100), 1)] ∧
    (3333 / 100 : ℚ) ≠ ((4 : ℚ) - 3) / 3 * 100 := by
  constructor
  · have hwin : windowHistory cexHist "X" 604800 7 = cexHist := by
      have hfil : (cexHist.filter fun h =>
          h.product_id == "X" && decide (windowStart 604800 7 ≤ h.date)) = cexHist := by
        norm_num [cexHist, windowStart, List.filter]
      rw [windowHistory, hfil]
      norm_num [cexHist, sortAscBy, List.insertionSort, List.orderedInsert, leBy]
    have hgrow : pyRound2 (growthRateOf (windowHistory cexHist "X" 604800 7))
        = 3333 / 100 := by
      rw [hwin]
      have : growthRateOf cexHist = 100 / 3 := by
        norm_num [growthRateOf, cexHist, List.getLast?]
      rw [this]
      norm_num [pyRound2, roundHalfEven]
    show (if (([cexX].filter fun p =>
        optFilterLower none p.platform && optFilterRaw none p.category).map
        (fun p => p.product_id)).isEmpty then []
      else addRank 1 ((sortDescBy Prod.snd
        (risingCandidates [cexX] (.ok cexHist) none none 7 (7 * 86400))).take 20))
      = [((cexX, 3333 / 100), 1)]
    have hcands : risingCandidates [cexX] (.ok cexHist) none none 7 (7 * 86400)
        = [(cexX, 3333 / 100)] := by
      rw [risingCandidates]
      norm_num [cexX, optFilterLower, optFilterRaw, List.filter, List.filterMap, List.find?]
      exact hgrow
    rw [hcands]
    norm_num [cexX, optFilterLower, optFilterRaw, List.filter, sortDescBy,
      List.insertionSort, List.orderedInsert, addRank]
  · norm_num

/-- Witness for C3 (amended): the candidate-inclusion part applied to the
scenario store, with every hypothesis discharged concretely. -/
theorem rising_products_ranking_witness :
    (scenX, pyRound2 (claimGrowthRate
        ((windowHistory scenHist "X" (7 * 86400) 3).map fun r => r.sales_volume)))
      ∈ risingCandidates [scenX] (DBState.history scenDB) none none 3 (7 * 86400) := by
  have h := (rising_products_ranking scenDB none none 3 20 (7 * 86400)).2.2.2
    [scenX] scenHist rfl rfl (by simp [scenX]) scenX (by simp)
    (by norm_num [scenX, optFilterLower, optFilterRaw])
  simpa [scenX, scenDB] using h

/-! ## Claim C4 — the value (price-performance) ranking -/

theorem mem_addRank_exists {α : Type} {x : α} {n : ℕ} {l : List α}
    (h : x ∈ l) : ∃ e ∈ addRank n l, e.1 = x := by
  have : x ∈ (addRank n l).map Prod.fst := by rwa [addRank_map_fst]
  obtain ⟨e, he, hfst⟩ := List.mem_map.mp this
  exact ⟨e, he, hfst⟩

/-- C4 amended: the value ranking output is sorted descending by
`value_score`, truncated to `limit`, with rank = 1-based position; every
included product has `price > 0`, `rating > 0` and score
`rating / ln(1 + price)`; and the claimed exclusion criterion
"excluded iff price ≤ 0 or rating ≤ 0" holds whenever `limit` is large
enough to hold all qualifying products (the amendment: a qualifying product
can also be excluded merely by falling beyond the `limit` cutoff). -/
theorem value_ranking_spec (db : DBState) (platform category : Option String)
    (limit : ℕ) :
    (get_price_performance_ranking db platform category limit).Pairwise
      (fun a b => b.1.2 ≤ a.1.2) ∧
    (get_price_performance_ranking db platform category limit).length ≤ limit ∧
    (get_price_performance_ranking db platform category limit).map Prod.snd
      = List.range' 1 (get_price_performance_ranking db platform category limit).length ∧
    (∀ e ∈ get_price_performance_ranking db platform category limit,
      0 < e.1.1.price ∧ 0 < e.1.1.rating ∧
      e.1.2 = (e.1.1.rating : ℝ) / Real.log (1 + (e.1.1.price : ℝ))) ∧
    (∀ ps, db.products = .ok ps →
      (valueQualified ps platform category).length ≤ limit →
      ∀ p ∈ valueFiltered ps platform category,
        ((∃ e ∈ get_price_performance_ranking db platform category limit, e.1.1 = p) ↔
          0 < p.price ∧ 0 < p.rating)) := by
  have hqual : ∀ ps (p : Product), p ∈ valueQualified ps platform category ↔
      p ∈ valueFiltered ps platform category ∧ 0 < p.price ∧ 0 < p.rating := by
    intro ps p
    unfold valueQualified
    rw [List.mem_filter]
    simp [Bool.and_eq_true, decide_eq_true_eq, and_assoc]
  refine ⟨?_, ?_, ?_, ?_, ?_⟩
  · unfold get_price_performance_ranking
    cases db.products with
    | error e => simp
    | ok ps =>
        exact addRank_pairwise
          ((sortDescBy_pairwise Prod.snd _).sublist (List.take_sublist _ _))
  · unfold get_price_performance_ranking
    cases db.products with
    | error e => simp
    | ok ps =>
        rw [addRank_length]
        exact List.length_take_le _ _
  · unfold get_price_performance_ranking
    cases db.products with
    | error e => simp
    | ok ps => rw [addRank_map_snd, addRank_length]
  · intro e he
    unfold get_price_performance_ranking at he
    cases hps : db.products with
    | error err => rw [hps] at he; simp at he
    | ok ps =>
        rw [hps] at he
        have h1 : e.1 ∈ (sortDescBy Prod.snd
            ((valueQualified ps platform category).map fun p => (p, value_score p))) :=
          (List.take_sublist _ _).subset (mem_addRank_fst he)
        have h2 := mem_sortDescBy.mp h1
        obtain ⟨p, hp, hep⟩ := List.mem_map.mp h2
        have hcond := ((hqual ps p).mp hp).2
        rw [← hep]
        exact ⟨hcond.1, hcond.2, rfl⟩
  · intro ps hps hlen p hpf
    constructor
    · rintro ⟨e, he, hfst⟩
      unfold get_price_performance_ranking at he
      rw [hps] at he
      have h1 : e.1 ∈ (sortDescBy Prod.snd
          ((valueQualified ps platform category).map fun q => (q, value_score q))) :=
        (List.take_sublist _ _).subset (mem_addRank_fst he)
      obtain ⟨q, hq, heq⟩ := List.mem_map.mp (mem_sortDescBy.mp h1)
      have : e.1.1 = q := by rw [← heq]
      rw [hfst] at this
      rw [this]
      exact ((hqual ps q).mp hq).2
    · intro hcond
      have hq : p ∈ valueQualified ps platform category :=
        (hqual ps p).mpr ⟨hpf, hcond⟩
      have hscored : (p, value_score p) ∈
          ((valueQualified ps platform category).map fun q => (q, value_score q)) :=
        List.mem_map_of_mem _ hq
      have hsorted : (p, value_score p) ∈ sortDescBy Prod.snd
          ((valueQualified ps platform category).map fun q => (q, value_score q)) :=
        mem_sortDescBy.mpr hscored
      have hlen2 : (sortDescBy Prod.snd
          ((valueQualified ps platform category).map fun q => (q, value_score q))).length
          ≤ limit := by
        rw [sortDescBy_length, List.length_map]
        exact hlen
      have htake : (sortDescBy Prod.snd
          ((valueQualified ps platform category).map fun q => (q, value_score q))).take limit
          = sortDescBy Prod.snd
            ((valueQualified ps platform category).map fun q => (q, value_score q)) :=
        List.take_of_length_le hlen2
      obtain ⟨e, he, hfst⟩ := mem_addRank_exists (n := 1) (htake ▸ hsorted)
      refine ⟨e, ?_, by rw [hfst]⟩
      unfold get_price_performance_ranking
      rw [hps]
      exact he

/-- Store for the C4 witness: one qualifying product. -/
def exDBW4 : DBState :=
  ⟨.ok [⟨"amazon", "W", "W", 1, 0, 1, 0, "cat", 0, []⟩], .ok []⟩

/-- Witness for C4 at a concrete store: the membership criterion applied to
the single qualifying product with a large enough limit. -/
theorem value_ranking_spec_witness :
    (∃ e ∈ get_price_performance_ranking exDBW4 none none 20,
        e.1.1 = ⟨"amazon", "W", "W", 1, 0, 1, 0, "cat", 0, []⟩) ↔
      (0 < (⟨"amazon", "W", "W", 1, 0, 1, 0, "cat", 0, []⟩ : Product).price ∧
        0 < (⟨"amazon", "W", "W", 1, 0, 1, 0, "cat", 0, []⟩ : Product).rating) :=
  (value_ranking_spec exDBW4 none none 20).2.2.2.2
    [⟨"amazon", "W", "W", 1, 0, 1, 0, "cat", 0, []⟩] rfl
    (by norm_num [valueQualified, valueFiltered, optFilterRaw, List.filter])
    ⟨"amazon", "W", "W", 1, 0, 1, 0, "cat", 0, []⟩
    (by norm_num [valueFiltered, optFilterRaw, List.filter])

/-- First product of the C4 counterexample (price 1, rating 1). -/
def valA : Product := ⟨"amazon", "A", "Product A", 1, 0, 1, 0, "cat", 0, []⟩

/-- Second product of the C4 counterexample, same price and rating. -/
def valB : Product := ⟨"amazon", "B", "Product B", 1, 0, 1, 0, "cat", 0, []⟩

/-- Store for the C4 counterexample. -/
def exDB4 : DBState := ⟨.ok [valA, valB], .ok []⟩

/-- C4 counterexample: with `limit = 1` and two qualifying products, `valB`
is excluded from the output although its price and rating are positive, so
"excluded iff price ≤ 0 or rating ≤ 0" fails on the code — truncation to
`limit` also excludes. -/
theorem value_ranking_excludes_beyond_limit :
    (get_price_performance_ranking exDB4 none none 1).map (fun e => e.1.1) = [valA] ∧
    valB ∈ valueQualified [valA, valB] none none ∧
    valA ≠ valB := by
  refine ⟨?_, by norm_num [valueQualified, valueFiltered, valA, valB,
    optFilterRaw, List.filter], ?_⟩
  · show ((addRank 1 ((sortDescBy Prod.snd
        ((valueQualified [valA, valB] none none).map fun p => (p, value_score p))).take 1)).map
        fun e => e.1.1) = [valA]
    have hq : valueQualified [valA, valB] none none = [valA, valB] := by
      norm_num [valueQualified, valueFiltered, valA, valB, optFilterRaw, List.filter]
    rw [hq]
    have hvv : value_score valB = value_score valA := rfl
    have hsort : sortDescBy Prod.snd [(valA, value_score valA), (valB, value_score valB)]
        = [(valA, value_score valA), (valB, value_score valB)] := by
      simp only [sortDescBy, List.insertionSort, List.orderedInsert]
      rw [if_pos (show geBy Prod.snd (valA, value_score valA) (valB, value_score valB)
        from le_of_eq hvv)]
    show ((addRank 1 ((sortDescBy Prod.snd
        [(valA, value_score valA), (valB, value_score valB)]).take 1)).map
        fun e => e.1.1) = [valA]
    rw [hsort]
    rfl
  · intro h
    exact absurd (congrArg Product.product_id h) (by decide)

/-! ## Claim C5 — the qualitative price-tier classifier -/

/-- C5 amended: the classifier thresholds are applied to
`rating / (ln(1 + price) + 1)` — the source divides by `np.log1p(price) + 1`
(data_enricher.py line 167), not by `np.log1p(price)` — and "Unknown" is
returned whenever `price` or `rating` is missing or zero (Python
truthiness). -/
theorem price_rating_classifier_spec (p r : ℚ) (hp : p ≠ 0) (hr : r ≠ 0) :
    (calculate_price_rating (some p) (some r) = "Good Value" ↔
      1 < (r : ℝ) / (Real.log (1 + (p : ℝ)) + 1)) ∧
    (calculate_price_rating (some p) (some r) = "Fair Value" ↔
      (¬ 1 < (r : ℝ) / (Real.log (1 + (p : ℝ)) + 1) ∧
        1 / 2 < (r : ℝ) / (Real.log (1 + (p : ℝ)) + 1))) ∧
    (calculate_price_rating (some p) (some r) = "Expensive" ↔
      (¬ 1 < (r : ℝ) / (Real.log (1 + (p : ℝ)) + 1) ∧
        ¬ 1 / 2 < (r : ℝ) / (Real.log (1 + (p : ℝ)) + 1))) ∧
    calculate_price_rating none (some r) = "Unknown" ∧
    calculate_price_rating (some p) none = "Unknown" ∧
    calculate_price_rating (some 0) (some r) = "Unknown" ∧
    calculate_price_rating (some p) (some 0) = "Unknown" := by
  have hu1 : calculate_price_rating none (some r) = "Unknown" := by
    simp [calculate_price_rating]
  have hu2 : calculate_price_rating (some p) none = "Unknown" := by
    simp [calculate_price_rating]
  have hu3 : calculate_price_rating (some 0) (some r) = "Unknown" := by
    simp [calculate_price_rating]
  have hu4 : calculate_price_rating (some p) (some 0) = "Unknown" := by
    simp [calculate_price_rating]
  have hcond : ¬ ((some p).getD 0 = 0 ∨ (some r).getD 0 = 0) := by
    simp [hp, hr]
  have hbody : calculate_price_rating (some p) (some r)
      = (if 1 < (r : ℝ) / (Real.log (1 + (p : ℝ)) + 1) then "Good Value"
        else if 1 / 2 < (r : ℝ) / (Real.log (1 + (p : ℝ)) + 1) then "Fair Value"
        else "Expensive") := by
    unfold calculate_price_rating
    rw [if_neg hcond]
    rfl
  have hmain : (calculate_price_rating (some p) (some r) = "Good Value" ↔
      1 < (r : ℝ) / (Real.log (1 + (p : ℝ)) + 1)) ∧
      (calculate_price_rating (some p) (some r) = "Fair Value" ↔
        (¬ 1 < (r : ℝ) / (Real.log (1 + (p : ℝ)) + 1) ∧
          1 / 2 < (r : ℝ) / (Real.log (1 + (p : ℝ)) + 1))) ∧
      (calculate_price_rating (some p) (some r) = "Expensive" ↔
        (¬ 1 < (r : ℝ) / (Real.log (1 + (p : ℝ)) + 1) ∧
          ¬ 1 / 2 < (r : ℝ) / (Real.log (1 + (p : ℝ)) + 1))) := by
    rw [hbody]
    by_cases h1 : 1 < (r : ℝ) / (Real.log (1 + (p : ℝ)) + 1)
    · rw [if_pos h1]
      exact ⟨⟨fun _ => h1, fun _ => rfl⟩,
        ⟨fun hc => absurd hc (by decide), fun hh => absurd h1 hh.1⟩,
        ⟨fun hc => absurd hc (by decide), fun hh => absurd h1 hh.1⟩⟩
    · rw [if_neg h1]
      by_cases h2 : 1 / 2 < (r : ℝ) / (Real.log (1 + (p : ℝ)) + 1)
      · rw [if_pos h2]
        exact ⟨⟨fun hc => absurd hc (by decide), fun hh => absurd hh h1⟩,
          ⟨fun _ => ⟨h1, h2⟩, fun _ => rfl⟩,
          ⟨fun hc => absurd hc (by decide), fun hh => absurd h2 hh.2⟩⟩
      · rw [if_neg h2]
        exact ⟨⟨fun hc => absurd hc (by decide), fun hh => absurd hh h1⟩,
          ⟨fun hc => absurd hc (by decide), fun hh => absurd hh.2 h2⟩,
          ⟨fun _ => ⟨h1, h2⟩, fun _ => rfl⟩⟩
  exact ⟨hmain.1, hmain.2.1, hmain.2.2, hu1, hu2, hu3, hu4⟩

/-- Witness for C5 at concrete inputs. -/
theorem price_rating_classifier_spec_witness :
    (calculate_price_rating (some 2) (some 2) = "Good Value" ↔
      1 < ((2 : ℚ) : ℝ) / (Real.log (1 + ((2 : ℚ) : ℝ)) + 1)) ∧
    calculate_price_rating none (some 2) = "Unknown" :=
  ⟨(price_rating_classifier_spec 2 2 (by norm_num) (by norm_num)).1,
    (price_rating_classifier_spec 2 2 (by norm_num) (by norm_num)).2.2.2.1⟩

/-- C5 counterexample: at price 2 and rating 2 the claim's value score
`rating / ln(1 + price) = 2 / ln 3 ≈ 1.82` exceeds 1, so the claim demands
"Good Value", but the source computes `2 / (ln 3 + 1) ≈ 0.95` and returns
"Fair Value". -/
theorem price_rating_not_by_value_score :
    calculate_price_rating (some 2) (some 2) = "Fair Value" ∧
    1 < ((2 : ℚ) : ℝ) / Real.log (1 + ((2 : ℚ) : ℝ)) := by
  have hc : ((2 : ℚ) : ℝ) = (2 : ℝ) := by norm_num
  have h3 : (1 : ℝ) + (2 : ℝ) = 3 := by norm_num
  have hlog1 : (1 : ℝ) < Real.log 3 := by
    rw [Real.lt_log_iff_exp_lt (by norm_num)]
    calc Real.exp 1 < 2.7182818286 := Real.exp_one_lt_d9
      _ < 3 := by norm_num
  have hlog2 : Real.log 3 < 2 := by
    rw [Real.log_lt_iff_lt_exp (by norm_num)]
    have h := Real.add_one_lt_exp (x := 2) (by norm_num)
    linarith
  have hpos : (0 : ℝ) < Real.log 3 + 1 := by linarith
  constructor
  · unfold calculate_price_rating
    rw [if_neg (by norm_num)]
    simp only [Option.getD_some]
    have hn1 : ¬ 1 < ((2 : ℚ) : ℝ) / (Real.log (1 + ((2 : ℚ) : ℝ)) + 1) := by
      rw [hc, h3, not_lt, div_le_one hpos]
      linarith
    have hp2 : 1 / 2 < ((2 : ℚ) : ℝ) / (Real.log (1 + ((2 : ℚ) : ℝ)) + 1) := by
      rw [hc, h3, lt_div_iff₀ hpos]
      linarith
    rw [if_neg hn1, if_pos hp2]
  · rw [hc, h3, lt_div_iff₀ (lt_trans zero_lt_one hlog1)]
    linarith

/-! ## Claim C6 — ranking operations degrade to empty containers -/

/-- C6: whenever the products query fails (store raises) or returns no
rows, every public ranking operation returns an empty list / empty map
(`none` models `get_popular_attributes`' empty dict) instead of
propagating an exception; in the embedding the operations are total
functions, so no other outcome is possible. -/
theorem ranking_ops_degrade_to_empty (db : DBState) (platform category : Option String)
    (time_range : String) (limit days limit_per_category limit_per_range : ℕ)
    (price_ranges : Option (List PriceRange)) (now : ℚ)
    (h : (∃ e, db.products = .error e) ∨ db.products = .ok []) :
    get_hot_products db platform category time_range limit = [] ∧
    get_rising_products db platform category days limit now = [] ∧
    get_category_rankings db platform limit_per_category = [] ∧
    get_price_range_rankings db platform price_ranges limit_per_range = [] ∧
    get_cross_platform_comparison db category limit = [] ∧
    get_popular_attributes db platform category limit = none ∧
    get_price_performance_ranking db platform category limit = [] := by
  obtain ⟨e, he⟩ | he := h
  · refine ⟨?_, ?_, ?_, ?_, ?_, ?_, ?_⟩
    · simp [get_hot_products, he]
    · simp [get_rising_products, he]
    · simp [get_category_rankings, he]
    · simp [get_price_range_rankings, he]
    · simp [get_cross_platform_comparison, get_hot_products, he]
    · simp [get_popular_attributes, get_hot_products, he]
    · simp [get_price_performance_ranking, he]
  · refine ⟨?_, ?_, ?_, ?_, ?_, ?_, ?_⟩
    · simp [get_hot_products, he, sortDescBy, List.insertionSort, addRank]
    · simp [get_rising_products, he]
    · simp [get_category_rankings, he, uniqueFirst]
    · simp [get_price_range_rankings, he, sortDescBy, List.insertionSort, addRank]
    · simp [get_cross_platform_comparison, get_hot_products, he, sortDescBy,
        List.insertionSort, addRank]
    · simp [get_popular_attributes, get_hot_products, he, sortDescBy,
        List.insertionSort, addRank]
    · simp [get_price_performance_ranking, he, valueQualified, valueFiltered,
        sortDescBy, List.insertionSort, addRank]

/-- Store for the C6 witness: both queries fail. -/
def exDB6 : DBState := ⟨.error "store down", .error "store down"⟩

/-- Witness for C6 on a store whose queries fail. -/
theorem ranking_ops_degrade_to_empty_witness :
    get_hot_products exDB6 none none "week" 20 = [] ∧
    get_rising_products exDB6 none none 7 20 0 = [] ∧
    get_category_rankings exDB6 none 10 = [] ∧
    get_price_range_rankings exDB6 none none 10 = [] ∧
    get_cross_platform_comparison exDB6 none 10 = [] ∧
    get_popular_attributes exDB6 none none 10 = none ∧
    get_price_performance_ranking exDB6 none none 20 = [] :=
  ranking_ops_degrade_to_empty exDB6 none none "week" 20 7 10 10 none 0
    (Or.inl ⟨"store down", rfl⟩)

/-! ## Claim C9 — `get_trend_summary` degrades to a structured error object -/

/-- C9: whenever any of the three trend sub-analyses returns an empty
result, `get_trend_summary` still returns a structured object carrying the
(possibly partial) sub-results together with the explicit `error` field;
the embedding is a total function, so the operation never raises. -/
theorem trend_summary_degrades (db : DBState) (platform : Option String)
    (now : ℚ) (days : ℕ)
    (h : analyze_sales_trend db platform none now days = none ∨
      analyze_category_trend db platform now days = none ∨
      analyze_price_trend db platform none now days = none) :
    get_trend_summary db platform now days
      = TrendSummary.failure "Failed to generate trend summary"
          (analyze_sales_trend db platform none now days)
          (analyze_category_trend db platform now days)
          (analyze_price_trend db platform none now days) := by
  unfold get_trend_summary
  rcases hS : analyze_sales_trend db platform none now days with - | sv
  · rcases hC : analyze_category_trend db platform now days with - | cv
    · rcases hP : analyze_price_trend db platform none now days with - | pv
      · rfl
      · rfl
    · rcases hP : analyze_price_trend db platform none now days with - | pv
      · rfl
      · rfl
  · rcases hC : analyze_category_trend db platform now days with - | cv
    · rcases hP : analyze_price_trend db platform none now days with - | pv
      · rfl
      · rfl
    · rcases hP : analyze_price_trend db platform none now days with - | pv
      · rfl
      · rcases h with h | h | h
        · rw [hS] at h; exact Option.noConfusion h
        · rw [hC] at h; exact Option.noConfusion h
        · rw [hP] at h; exact Option.noConfusion h

/-- Store for the C9 witness: the history query fails, so all three
sub-analyses come back empty. -/
def exDB9 : DBState := ⟨.ok [], .error "history query failed"⟩

/-- Witness for C9 on a store whose history query fails. -/
theorem trend_summary_degrades_witness :
    get_trend_summary exDB9 none 0 7
      = TrendSummary.failure "Failed to generate trend summary"
          (analyze_sales_trend exDB9 none none 0 7)
          (analyze_category_trend exDB9 none 0 7)
          (analyze_price_trend exDB9 none none 0 7) :=
  trend_summary_degrades exDB9 none 0 7 (Or.inl rfl)

/-! ## Claim C7 — trend fill policies -/

theorem hasCell_mem_pivotDays {rs : List ProductHistory}
    {col : ProductHistory → String} {g : String} {d : ℤ}
    (h : hasCell rs col g d = true) : d ∈ pivotDays rs := by
  obtain ⟨r, hr, hcond⟩ := List.any_eq_true.mp h
  have hday : dayOf r.date = d :=
    of_decide_eq_true ((Bool.and_eq_true _ _).mp hcond).2
  rw [pivotDays, mem_uniqueFirst]
  exact hday ▸ List.mem_map_of_mem _ hr

theorem ffillCell_of_some (cell : ℤ → Option ℚ) (startD d : ℤ) (v : ℚ)
    (h : cell d = some v) : ffillCell cell startD d = some v := by
  unfold ffillCell
  cases hn : (d - startD).toNat with
  | zero => simp [ffillGo, h]
  | succ k => simp [ffillGo, h]

/-- C7 amended: in the sales trend every reindexed day with no data for a
series is filled with 0, and in the price trend a day absent from the
entire pivot index (no group has data that day) is forward-filled from the
previous day; but — the amendment — a day that is in the pivot index while
this particular series has no data on it is filled with 0 at the pivot
stage (`pivot(...).fillna(0)`, lines 603/607/611), so in grouped price
trends a missing price day can be zero-filled after all. -/
theorem trend_fill_policy (rs : List ProductHistory) (col : ProductHistory → String)
    (g : String) (startD d : ℤ) :
    (¬ hasCell rs col g d = true → (salesPivotCell rs col g d).getD 0 = 0) ∧
    (d ∉ pivotDays rs → startD < d →
      ffillCell (pricePivotCell rs col g) startD d
        = ffillCell (pricePivotCell rs col g) startD (d - 1)) ∧
    (d ∈ pivotDays rs → ¬ hasCell rs col g d = true →
      ffillCell (pricePivotCell rs col g) startD d = some 0) := by
  refine ⟨?_, ?_, ?_⟩
  · intro h
    unfold salesPivotCell
    rw [if_neg h]
    by_cases hm : d ∈ pivotDays rs
    · rw [if_pos hm]; rfl
    · rw [if_neg hm]; rfl
  · intro hmem hlt
    have hnc : ¬ hasCell rs col g d = true :=
      fun hc => hmem (hasCell_mem_pivotDays hc)
    have hcell : pricePivotCell rs col g d = none := by
      unfold pricePivotCell
      rw [if_neg hnc, if_neg hmem]
    have hfuel : (d - startD).toNat = (d - 1 - startD).toNat + 1 := by omega
    rw [ffillCell, ffillCell, hfuel]
    simp only [ffillGo, hcell]
  · intro hmem hnc
    have hcell : pricePivotCell rs col g d = some 0 := by
      unfold pricePivotCell
      rw [if_neg hnc, if_pos hmem]
    exact ffillCell_of_some _ _ _ _ hcell

/-- History for the C7 witness: a single record for category A on day 9. -/
def exHist7w : List ProductHistory := [⟨"W", "amz", "A", 9 * 86400, 5, 1, 0, 0⟩]

/-- Witness for C7 (amended) at concrete cells: a day with no sales data
yields 0, and a reindexed price day absent from the pivot index carries the
previous day's value forward. -/
theorem trend_fill_policy_witness :
    (salesPivotCell exHist7w (fun h => h.category) "B" 9).getD 0 = 0 ∧
    ffillCell (pricePivotCell exHist7w (fun h => h.category) "A") 9 10
      = ffillCell (pricePivotCell exHist7w (fun h => h.category) "A") 9 (10 - 1) := by
  constructor
  · exact (trend_fill_policy exHist7w (fun h => h.category) "B" 9 9).1
      (by norm_num [hasCell, exHist7w, dayOf, List.any]; decide)
  · exact (trend_fill_policy exHist7w (fun h => h.category) "A" 9 10).2.1
      (by norm_num [pivotDays, uniqueFirst, exHist7w, dayOf]) (by norm_num)

/-- History for the C7 counterexample: category A has a price only on day
9; category B has prices on days 9 and 10. -/
def exHist7 : List ProductHistory :=
  [⟨"X1", "amz", "A", 9 * 86400, 5, 1, 0, 0⟩,
   ⟨"X2", "amz", "B", 9 * 86400, 7, 1, 0, 0⟩,
   ⟨"X3", "amz", "B", 10 * 86400, 9, 1, 0, 0⟩]

/-- Store for the C7 counterexample. -/
def exDB7 : DBState := ⟨.ok [], .ok exHist7⟩

/-- C7 counterexample: in the platform-scoped price trend (grouped by
category), category A has no price on day 10, yet the returned series holds
0 for that day — the previous day's price was 5, so the value is not
forward-filled: the pivot's `fillna(0)` runs before the reindex `ffill`,
contradicting "a missing price day is never filled with 0". -/
theorem price_trend_zero_fills_grouped_gap :
    analyze_price_trend exDB7 (some "amz") none (10 * 86400) 1
      = some { trend_data := [("A", [(9, some 5), (10, some 0)]),
                              ("B", [(9, some 7), (10, some 9)]),
                              ("average_price", [(9, some 6), (10, some (9 / 2))])],
               price_change_rate := -25, period_start := 9, period_end := 10 } ∧
    ((0 : ℚ) ≠ 5) := by
  have e1 : (("B" : String) == "A") = false := by decide
  have e2 : (("A" : String) == "B") = false := by decide
  have e3 : (decide (("B" : String) = "A")) = false := by decide
  have e4 : (decide (("A" : String) = "B")) = false := by decide
  have e5 : (("average_price" : String) == "A") = false := by decide
  have e6 : (("average_price" : String) == "B") = false := by decide
  have hrs : histFilter exHist7 (some "amz") none (10 * 86400) 1 = exHist7 := by
    norm_num [histFilter, exHist7, windowStart, optFilterRaw, List.filter]
  have hcol : priceTrendCol (some "amz") none = fun h => h.category := by
    simp [priceTrendCol]
  have hstart : dayOf (windowStart (10 * 86400) 1) = 9 := by
    norm_num [dayOf, windowStart]
  have hend : dayOf ((10 : ℚ) * 86400) = 10 := by norm_num [dayOf]
  have hrange : windowDays (10 * 86400) 1 = [9, 10] := by
    rw [windowDays, hstart, hend, show ((10 : ℤ) - 9 + 1).toNat = 2 by decide,
      show List.range 2 = [0, 1] from rfl]
    norm_num
  have hcats : uniqueFirst (exHist7.map fun h => h.category) = ["A", "B"] := by
    norm_num [exHist7, uniqueFirst, e3]
  have cA9 : pricePivotCell exHist7 (fun h => h.category) "A" 9 = some 5 := by
    norm_num [pricePivotCell, hasCell, meanPriceCell, exHist7, dayOf,
      listAvgQ, listSumQ, List.filter, List.any, e1, e2]
  have cB9 : pricePivotCell exHist7 (fun h => h.category) "B" 9 = some 7 := by
    norm_num [pricePivotCell, hasCell, meanPriceCell, exHist7, dayOf,
      listAvgQ, listSumQ, List.filter, List.any, e1, e2]
  have cB10 : pricePivotCell exHist7 (fun h => h.category) "B" 10 = some 9 := by
    norm_num [pricePivotCell, hasCell, meanPriceCell, exHist7, dayOf,
      listAvgQ, listSumQ, List.filter, List.any, e1, e2]
  have cA10 : pricePivotCell exHist7 (fun h => h.category) "A" 10 = some 0 := by
    have hnc : ¬ hasCell exHist7 (fun h => h.category) "A" 10 = true := by
      norm_num [hasCell, exHist7, dayOf, List.any, e1, e2]
    have hmem : (10 : ℤ) ∈ pivotDays exHist7 := by
      norm_num [pivotDays, uniqueFirst, exHist7, dayOf]
    unfold pricePivotCell
    rw [if_neg hnc, if_pos hmem]
  have fA9 := ffillCell_of_some (pricePivotCell exHist7 (fun h => h.category) "A") 9 9 5 cA9
  have fA10 := ffillCell_of_some (pricePivotCell exHist7 (fun h => h.category) "A") 9 10 0 cA10
  have fB9 := ffillCell_of_some (pricePivotCell exHist7 (fun h => h.category) "B") 9 9 7 cB9
  have fB10 := ffillCell_of_some (pricePivotCell exHist7 (fun h => h.category) "B") 9 10 9 cB10
  refine ⟨?_, by norm_num⟩
  simp only [analyze_price_trend, exDB7, hrs, hcol, hstart, hend, hrange, hcats]
  simp only [Option.isSome_some, Option.isSome_none, Bool.and_false, Bool.false_eq_true,
    if_false, List.map_cons, List.map_nil, fA9, fA10, fB9, fB10]
  norm_num [rowMean, listSumQ, List.contains, List.elem, e5, e6,
    fA9, fA10, fB9, fB10, List.filterMap_cons, List.filterMap_nil, List.foldl]
  norm_num [show ([5, 7] : List ℚ) ≠ [] from by simp,
    show ([0, 9] : List ℚ) ≠ [] from by simp]

/-! ## Claim C8 — category trend keeps only the top-5 categories -/

theorem contains_iff_mem_str {l : List String} {a : String} :
    l.contains a = true ↔ a ∈ l := by
  unfold List.contains
  exact List.elem_iff

theorem map_fst_pairs {α : Type} (f : String → α) :
    ∀ cols : List String, (cols.map fun g => (g, f g)).map Prod.fst = cols := by
  intro cols
  induction cols with
  | nil => rfl
  | cons c t ih => simp [ih]

/-- C8 amended: when the category trend is computed, only the 5 categories
with the highest total sales volume appear in the per-category trend series
and in `growth_rates`; but — the amendment — `category_totals` is returned
as `category_totals.to_dict()` before the top-5 cut (line 542), so every
category of the window appears in it, in descending total order. -/
theorem category_trend_top5 (db : DBState) (hs : List ProductHistory)
    (platform : Option String) (now : ℚ) (days : ℕ) (res : CategoryTrendResult)
    (hdb : db.history = .ok hs)
    (hres : analyze_category_trend db platform now days = some res) :
    (∀ c, (c ∈ res.trend_data.map Prod.fst ↔
      c ∈ (res.category_totals.take 5).map Prod.fst)) ∧
    res.growth_rates.map Prod.fst = res.trend_data.map Prod.fst ∧
    (∀ c, (c ∈ res.category_totals.map Prod.fst ↔
      c ∈ (histFilter hs platform none now days).map fun h => h.category)) ∧
    res.category_totals.Pairwise (fun a b => b.2 ≤ a.2) := by
  unfold analyze_category_trend at hres
  rw [hdb] at hres
  rw [Option.some.injEq] at hres
  subst hres
  dsimp only
  rw [map_fst_pairs, map_fst_pairs]
  have hperm : List.Perm ((sortDescBy Prod.snd
      ((uniqueFirst ((histFilter hs platform none now days).map fun h => h.category)).map
        fun c => (c, listSumQ (((histFilter hs platform none now days).filter
          fun h => h.category == c).map fun h => (h.sales_volume : ℚ))))).map Prod.fst)
      (uniqueFirst ((histFilter hs platform none now days).map fun h => h.category)) := by
    have h1 := (sortDescBy_perm Prod.snd
      ((uniqueFirst ((histFilter hs platform none now days).map fun h => h.category)).map
        fun c => (c, listSumQ (((histFilter hs platform none now days).filter
          fun h => h.category == c).map fun h => (h.sales_volume : ℚ))))).map Prod.fst
    rwa [map_fst_pairs] at h1
  have hmemtotals : ∀ c, c ∈ (sortDescBy Prod.snd
      ((uniqueFirst ((histFilter hs platform none now days).map fun h => h.category)).map
        fun c => (c, listSumQ (((histFilter hs platform none now days).filter
          fun h => h.category == c).map fun h => (h.sales_volume : ℚ))))).map Prod.fst
      ↔ c ∈ (histFilter hs platform none now days).map fun h => h.category := by
    intro c
    rw [hperm.mem_iff, mem_uniqueFirst]
  refine ⟨?_, rfl, hmemtotals, sortDescBy_pairwise Prod.snd _⟩
  intro c
  rw [mem_uniqueFirst]
  constructor
  · intro hmem
    obtain ⟨h, hh, hcat⟩ := List.mem_map.mp hmem
    have hfil := List.mem_filter.mp hh
    exact hcat ▸ contains_iff_mem_str.mp hfil.2
  · intro htop
    have hcl : c ∈ (histFilter hs platform none now days).map fun h => h.category := by
      rw [← hmemtotals c]
      exact List.map_subset Prod.fst (List.take_subset 5 _) htop
    obtain ⟨h, hh, hcat⟩ := List.mem_map.mp hcl
    refine List.mem_map.mpr ⟨h, List.mem_filter.mpr ⟨hh, ?_⟩, hcat⟩
    rw [hcat]
    exact contains_iff_mem_str.mpr htop

/-- History for C8: six distinct categories on one day, with distinct
total sales 60, 50, 40, 30, 20, 10. -/
def exHist8 : List ProductHistory :=
  [⟨"P1", "amz", "a", 9 * 86400, 1, 60, 0, 0⟩,
   ⟨"P2", "amz", "b", 9 * 86400, 1, 50, 0, 0⟩,
   ⟨"P3", "amz", "c", 9 * 86400, 1, 40, 0, 0⟩,
   ⟨"P4", "amz", "d", 9 * 86400, 1, 30, 0, 0⟩,
   ⟨"P5", "amz", "e", 9 * 86400, 1, 20, 0, 0⟩,
   ⟨"P6", "amz", "f", 9 * 86400, 1, 10, 0, 0⟩]

/-- Store for C8. -/
def exDB8 : DBState := ⟨.ok [], .ok exHist8⟩

/-- The category-trend result on `exDB8`. -/
def catRes8 : CategoryTrendResult :=
  { trend_data := [("a", [(9, 60)]), ("b", [(9, 50)]), ("c", [(9, 40)]),
                   ("d", [(9, 30)]), ("e", [(9, 20)])],
    category_totals := [("a", 60), ("b", 50), ("c", 40), ("d", 30), ("e", 20), ("f", 10)],
    growth_rates := [("a", 0), ("b", 0), ("c", 0), ("d", 0), ("e", 0)],
    period_start := 9, period_end := 9 }

theorem analyze_category_trend_exDB8_eval :
    analyze_category_trend exDB8 none (9 * 86400) 0 = some catRes8 := by
  have hrs : histFilter exHist8 none none (9 * 86400) 0 = exHist8 := by
    norm_num [histFilter, exHist8, windowStart, optFilterRaw, List.filter]
  have hstart : dayOf (windowStart (9 * 86400) 0) = 9 := by
    norm_num [dayOf, windowStart]
  have hend : dayOf ((9 : ℚ) * 86400) = 9 := by norm_num [dayOf]
  have hrange : windowDays (9 * 86400) 0 = [9] := by
    rw [windowDays, hstart, hend, show ((9 : ℤ) - 9 + 1).toNat = 1 by decide,
      show List.range 1 = [0] from rfl]
    norm_num
  have hcats : uniqueFirst (exHist8.map fun h => h.category)
      = ["a", "b", "c", "d", "e", "f"] := by
    simp [exHist8, uniqueFirst, List.filter_cons]
  have htotals : sortDescBy Prod.snd
      ((["a", "b", "c", "d", "e", "f"]).map fun c =>
        (c, listSumQ ((exHist8.filter fun h => h.category == c).map
          fun h => (h.sales_volume : ℚ))))
      = [("a", 60), ("b", 50), ("c", 40), ("d", 30), ("e", 20), ("f", 10)] := by
    have hinner : (["a", "b", "c", "d", "e", "f"]).map (fun c =>
        (c, listSumQ ((exHist8.filter fun h => h.category == c).map
          fun h => (h.sales_volume : ℚ))))
        = [("a", 60), ("b", 50), ("c", 40), ("d", 30), ("e", 20), ("f", 10)] := by
      simp [exHist8, listSumQ, List.filter_cons]
      try norm_num
    rw [hinner]
    norm_num [sortDescBy, List.insertionSort, List.orderedInsert, geBy]
  have htake : (([("a", 60), ("b", 50), ("c", 40), ("d", 30), ("e", 20), ("f", 10)]
      : List (String × ℚ)).take 5)
      = [("a", 60), ("b", 50), ("c", 40), ("d", 30), ("e", 20)] := rfl
  simp only [analyze_category_trend, exDB8, hrs, hcats, htotals, hrange, hstart,
    hend, htake]
  simp [exHist8, uniqueFirst, salesPivotCell, hasCell, sumSalesCell, pivotDays,
    listSumQ, List.filter_cons, List.any, catRes8, List.getLastD, List.getLast?, hend]
  try norm_num

/-- Witness for C8 (amended) on the six-category store: the dropped
category f is still a key of `category_totals`, and the totals are sorted
descending. -/
theorem category_trend_top5_witness :
    ("f" ∈ catRes8.category_totals.map Prod.fst ↔
      "f" ∈ (histFilter exHist8 none none (9 * 86400) 0).map fun h => h.category) ∧
    catRes8.category_totals.Pairwise (fun a b => b.2 ≤ a.2) :=
  ⟨(category_trend_top5 exDB8 exHist8 none (9 * 86400) 0 catRes8 rfl
      analyze_category_trend_exDB8_eval).2.2.1 "f",
    (category_trend_top5 exDB8 exHist8 none (9 * 86400) 0 catRes8 rfl
      analyze_category_trend_exDB8_eval).2.2.2⟩

/-- C8 counterexample: with six categories in the window, the sixth-ranked
category f is absent from the per-category trend series and from
`growth_rates`, but it is present in the returned `category_totals` map —
the claim's "absent from category_totals" is false on the code. -/
theorem category_trend_totals_keep_all_categories :
    analyze_category_trend exDB8 none (9 * 86400) 0 = some catRes8 ∧
    ("f", 10) ∈ catRes8.category_totals ∧
    "f" ∉ catRes8.trend_data.map Prod.fst ∧
    "f" ∉ catRes8.growth_rates.map Prod.fst := by
  refine ⟨analyze_category_trend_exDB8_eval, by norm_num [catRes8],
    by simp [catRes8], by simp [catRes8]⟩
